import Mathlib

/-!
Verification of the mammoth-cli Template Registry & Cache Manager.

This file shallowly embeds the registry data model and the operations of
`src/config.rs`, `src/manager.rs` and (where it diverges) the duplicated
download path of `src/main.rs`, and proves or refutes the frozen claims
about them.  External effects (filesystem, subprocesses, timers) are
modelled by explicit state values and per-step outcome oracles; the
observable actions of an operation are returned as an explicit event
trace.
-/

namespace Mammoth

/-- `Repo` from src/config.rs: name, url, branch plus optional
credentials (`auth_token`, `username`), which serde omits from the JSON
output when absent. -/
structure Repo where
  name : String
  url : String
  branch : String
  auth_token : Option String
  username : Option String
deriving DecidableEq, Repr

/-- `Template` from src/config.rs. -/
structure Template where
  id : String
  name : String
  repo : String
  path : String
  description : String
  language : String
  tags : List String
deriving DecidableEq, Repr

/-- `Config` from src/config.rs: the registry of repositories and
templates, in order. -/
structure Config where
  repos : List Repo
  templates : List Template
deriving DecidableEq, Repr

/-- The empty registry, as built by `TemplateManager::new` when the
backing file is absent (src/manager.rs lines 22-27). -/
def emptyConfig : Config := { repos := [], templates := [] }

/-- Rust `str::split(sep)` at the character level: the maximal
substrings between occurrences of the separator, in order, keeping
empty segments (so the empty input yields one empty segment). -/
def splitOnChar (sep : Char) : List Char → List (List Char)
  | [] => [[]]
  | c :: rest =>
    let groups := splitOnChar sep rest
    if c = sep then [] :: groups
    else
      match groups with
      | g :: gs => (c :: g) :: gs
      | [] => [[c]]

/-- Rust `str::trim` at the character level: strip leading and
trailing whitespace. -/
def trimChars (cs : List Char) : List Char :=
  ((cs.dropWhile Char.isWhitespace).reverse.dropWhile Char.isWhitespace).reverse

/-- Tag parsing inside `add_template` (src/manager.rs lines 365-373):
split the input on a comma, trim each segment, drop empty segments,
collect in order.  `None` yields the empty list. -/
def parseTags : Option String → List String
  | some s =>
    ((splitOnChar ',' s.toList).map (fun cs => String.mk (trimChars cs))).filter
      (fun t => !t.isEmpty)
  | none => []

/-- Errors raised by the registry mutation API (anyhow bail sites in
src/manager.rs). -/
inductive MutErr where
  | repoNotFound (name : String)
  | templateExists (id : String)
deriving DecidableEq, Repr

/-- `add_template` (src/manager.rs lines 341-390): repo must be
registered, id must be fresh, tags parsed from the delimited string,
template appended. -/
def add_template (cfg : Config) (id name repo path description language : String)
    (tags : Option String) : Except MutErr Config :=
  if !(cfg.repos.any (fun r => r.name == repo)) then
    .error (.repoNotFound repo)
  else if cfg.templates.any (fun t => t.id == id) then
    .error (.templateExists id)
  else
    .ok { cfg with templates := cfg.templates ++
      [{ id := id, name := name, repo := repo, path := path,
         description := description, language := language,
         tags := parseTags tags }] }

/-- The repository half of one `merge_config` loop iteration
(src/manager.rs lines 630-646): find the first existing repo of the same
name and overwrite its `url` and `branch` in place; if none matches,
append the incoming repo. -/
def mergeRepoOne : List Repo → Repo → List Repo
  | [], ir => [ir]
  | r :: rs, ir =>
    if r.name = ir.name then
      { r with url := ir.url, branch := ir.branch } :: rs
    else
      r :: mergeRepoOne rs ir

/-- The template half of one `merge_config` loop iteration
(src/manager.rs lines 649-664): find the first existing template of the
same id and replace the whole record in place; if none matches, append
the incoming template. -/
def mergeTemplateOne : List Template → Template → List Template
  | [], it => [it]
  | t :: ts, it =>
    if t.id = it.id then
      it :: ts
    else
      t :: mergeTemplateOne ts it

/-- `merge_config` (src/manager.rs lines 625-672): upsert every incoming
repository, then every incoming template, into the existing registry. -/
def merge_config (cfg imp : Config) : Config :=
  { repos := imp.repos.foldl mergeRepoOne cfg.repos,
    templates := imp.templates.foldl mergeTemplateOne cfg.templates }

/-- The structural error messages one repository contributes in
`validate_import_config` (src/manager.rs lines 566-577). -/
def repoErrors (r : Repo) : List String :=
  (if r.name.isEmpty then ["Repository name cannot be empty"] else []) ++
  (if r.url.isEmpty then
    ["Repository " ++ r.name ++ " URL cannot be empty"] else []) ++
  (if r.branch.isEmpty then
    ["Repository " ++ r.name ++ " branch cannot be empty"] else [])

/-- The structural error messages one template contributes in
`validate_import_config` (src/manager.rs lines 580-595). -/
def templateErrors (t : Template) : List String :=
  (if t.id.isEmpty then ["Template ID cannot be empty"] else []) ++
  (if t.name.isEmpty then
    ["Template " ++ t.id ++ " name cannot be empty"] else []) ++
  (if t.repo.isEmpty then
    ["Template " ++ t.id ++ " repository cannot be empty"] else []) ++
  (if t.path.isEmpty then
    ["Template " ++ t.id ++ " path cannot be empty"] else [])

/-- Whether a template references a repository absent from the imported
registry (src/manager.rs line 598). -/
def danglingRepoRef (cfg : Config) (t : Template) : Bool :=
  !(cfg.repos.any (fun r => r.name == t.repo))

/-- The collected validation errors of `validate_import_config`
(src/manager.rs lines 561-604): repository errors in order, then
template errors in order. -/
def validationErrors (cfg : Config) : List String :=
  cfg.repos.flatMap repoErrors ++ cfg.templates.flatMap templateErrors

/-- The collected validation warnings of `validate_import_config`: one
per template whose repo reference is dangling, in template order. -/
def validationWarnings (cfg : Config) : List String :=
  (cfg.templates.filter (danglingRepoRef cfg)).map
    (fun t => "Template " ++ t.id ++ " references non-existent repository " ++ t.repo)

/-- `validate_import_config` as a result (src/manager.rs lines 607-622):
fail with the full error list when any structural error exists, succeed
(reporting the warnings) otherwise. -/
def validate_import_config (cfg : Config) : Except (List String) (List String) :=
  if validationErrors cfg = [] then .ok (validationWarnings cfg)
  else .error (validationErrors cfg)

/-- Spec-level count of structural violations: one per empty
`name`/`url`/`branch` of a repository, one per empty
`id`/`name`/`repo`/`path` of a template. -/
def structuralErrorCount (cfg : Config) : Nat :=
  (cfg.repos.map (fun r =>
    (if r.name.isEmpty then 1 else 0) + (if r.url.isEmpty then 1 else 0) +
    (if r.branch.isEmpty then 1 else 0))).sum +
  (cfg.templates.map (fun t =>
    (if t.id.isEmpty then 1 else 0) + (if t.name.isEmpty then 1 else 0) +
    (if t.repo.isEmpty then 1 else 0) + (if t.path.isEmpty then 1 else 0))).sum

/-- Errors of `import_config` after the file has been read and parsed
(src/manager.rs lines 501-538): validation failure, an invalid mode,
or a failure of the final `save_config` write. -/
inductive ImportErr where
  | validationFailed (errors : List String)
  | invalidMode (mode : String)
  | saveFailed
deriving DecidableEq, Repr

/-- The manager's registry state: the in-memory config and the contents
of the persisted backing file (`none` when the file is absent). -/
structure ManagerState where
  config : Config
  savedFile : Option Config
deriving DecidableEq, Repr

/-- Rust `str::to_lowercase` at the character level. -/
def lowercase (s : String) : String :=
  String.mk (s.toList.map Char.toLower)

/-- `import_config` (src/manager.rs lines 501-538), modelled from the
point where the import file has been read and parsed into `imported`
(read/parse failures bail even earlier, also leaving the state
untouched).  Validation runs first unless skipped; then the mode string
is lowercased and dispatched: merge and overwrite mutate the in-memory
config and only then call `save_config` (the `?` on line 528), while
any other mode bails with InvalidMode before mutating or saving.
`saveOk` is the outcome of the `fs::write` of `save_config`; when it
fails the call returns the error with the in-memory config already
mutated, and — the overwrite of the backing file being non-atomic —
the file is left with the unspecified contents `fileAfterFailedSave`. -/
def import_config (st : ManagerState) (imported : Config) (mode : String)
    (skipValidation : Bool) (saveOk : Bool) (fileAfterFailedSave : Option Config) :
    ManagerState × Option ImportErr :=
  if !skipValidation && !(validationErrors imported = []) then
    (st, some (.validationFailed (validationErrors imported)))
  else if lowercase mode = "merge" then
    let merged := merge_config st.config imported
    if saveOk then ({ config := merged, savedFile := some merged }, none)
    else ({ config := merged, savedFile := fileAfterFailedSave }, some .saveFailed)
  else if lowercase mode = "overwrite" then
    if saveOk then ({ config := imported, savedFile := some imported }, none)
    else ({ config := imported, savedFile := fileAfterFailedSave }, some .saveFailed)
  else
    (st, some (.invalidMode mode))

/-- JSON trees, as far as the registry schema needs them.  serde_json's
text rendering and parsing of such trees is the external library's
round-trip contract and is abstracted away: `save`/`load` are modelled
at the tree level. -/
inductive Json where
  | str (s : String)
  | arr (elems : List Json)
  | obj (fields : List (String × Json))

/-- Field lookup in a JSON object (first occurrence wins, matching
serde's handling of our duplicate-free encoder output). -/
def getField (k : String) : List (String × Json) → Option Json
  | [] => none
  | (k', v) :: rest => if k' = k then some v else getField k rest

/-- Extract a JSON string. -/
def asStr : Json → Option String
  | .str s => some s
  | _ => none

/-- Extract a JSON array of strings. -/
def asStrList : Json → Option (List String)
  | .arr es => es.mapM asStr
  | _ => none

/-- serde serialization of a `Repo`: `auth_token` and `username` carry
`skip_serializing_if = Option::is_none` (src/config.rs lines 3-14). -/
def encodeRepo (r : Repo) : Json :=
  .obj ([("name", .str r.name), ("url", .str r.url), ("branch", .str r.branch)] ++
    (match r.auth_token with
     | some t => [("auth_token", .str t)]
     | none => []) ++
    (match r.username with
     | some u => [("username", .str u)]
     | none => []))

/-- serde deserialization of a `Repo`: the three string fields are
required, the two `Option` fields default to `none` when absent. -/
def decodeRepo (j : Json) : Option Repo :=
  match j with
  | .obj fs => do
    let name ← getField "name" fs >>= asStr
    let url ← getField "url" fs >>= asStr
    let branch ← getField "branch" fs >>= asStr
    let auth_token := getField "auth_token" fs >>= asStr
    let username := getField "username" fs >>= asStr
    pure { name := name, url := url, branch := branch,
           auth_token := auth_token, username := username }
  | _ => none

/-- serde serialization of a `Template` (src/config.rs lines 16-25). -/
def encodeTemplate (t : Template) : Json :=
  .obj [("id", .str t.id), ("name", .str t.name), ("repo", .str t.repo),
    ("path", .str t.path), ("description", .str t.description),
    ("language", .str t.language), ("tags", .arr (t.tags.map .str))]

/-- serde deserialization of a `Template`: all fields required. -/
def decodeTemplate (j : Json) : Option Template :=
  match j with
  | .obj fs => do
    let id ← getField "id" fs >>= asStr
    let name ← getField "name" fs >>= asStr
    let repo ← getField "repo" fs >>= asStr
    let path ← getField "path" fs >>= asStr
    let description ← getField "description" fs >>= asStr
    let language ← getField "language" fs >>= asStr
    let tags ← getField "tags" fs >>= asStrList
    pure { id := id, name := name, repo := repo, path := path,
           description := description, language := language, tags := tags }
  | _ => none

/-- serde serialization of a `Config` (src/config.rs lines 27-31),
as written by `save_config` (src/manager.rs lines 51-57). -/
def encodeConfig (c : Config) : Json :=
  .obj [("repos", .arr (c.repos.map encodeRepo)),
        ("templates", .arr (c.templates.map encodeTemplate))]

/-- serde deserialization of a `Config`. -/
def decodeConfig (j : Json) : Option Config :=
  match j with
  | .obj fs => do
    let repos ← getField "repos" fs >>= fun v =>
      match v with
      | .arr es => es.mapM decodeRepo
      | _ => none
    let templates ← getField "templates" fs >>= fun v =>
      match v with
      | .arr es => es.mapM decodeTemplate
      | _ => none
    pure { repos := repos, templates := templates }
  | _ => none

/-- `save_config` at the JSON-tree level. -/
def save_config (c : Config) : Json := encodeConfig c

/-- The load half of `TemplateManager::new` (src/manager.rs lines
17-33): an absent backing file yields the empty registry; a present file
is parsed, failing with a parse error when it does not match the
schema. -/
def load_config : Option Json → Except String Config
  | none => .ok emptyConfig
  | some j =>
    match decodeConfig j with
    | some c => .ok c
    | none => .error "Failed to parse config file"

/-- Outcome of spawning and awaiting one external git command:
either the spawn failed (`Command` returned `Err`), or the command ran
to an exit status, successful or not. -/
inductive SpawnOutcome where
  | spawnFailed
  | ran (exitSuccess : Bool)
deriving DecidableEq, Repr

/-- Behaviour an environment assigns to one external git invocation:
how many seconds it takes to complete, and what it yields when it
does. -/
structure StepBehavior where
  durationSecs : Nat
  outcome : SpawnOutcome
deriving DecidableEq, Repr

/-- `tokio::time::timeout(limit, cmd)` (src/manager.rs): `none` when the
command's duration exceeds the limit, otherwise the command's own
outcome. -/
def runWithTimeout (limitSecs : Nat) (b : StepBehavior) : Option SpawnOutcome :=
  if limitSecs < b.durationSecs then none else some b.outcome

/-- The blocking `Command::status()` wait of src/main.rs: no timeout,
the command's outcome regardless of its duration. -/
def runNoTimeout (b : StepBehavior) : Option SpawnOutcome :=
  some b.outcome

/-- The steps of the checkout sequence, for recording which ones a
download executed. -/
inductive Step where
  | clone
  | sparse
  | checkout
  | materialize
deriving DecidableEq, Repr

/-- Download errors (anyhow bail sites of `download_template`,
`download_template_internal`, `cleanup_temp_dir` and
`safe_copy_template_files` in src/manager.rs, and of the duplicated
download path in src/main.rs). -/
inductive DlErr where
  | repoNotFound (name : String)
  | cloneSpawn
  | cloneTimeout
  | cloneExit (url : String)
  | sparseSpawn
  | sparseTimeout
  | sparseExit (path : String)
  | checkoutSpawn
  | checkoutTimeout
  | checkoutExit (branch : String)
  | createCacheParentFailed
  | pathNotFound (path : String)
  | removeOldCacheFailed
  | copyFailed
  | preCleanupFailed
  | createTempFailed
  | postCleanupFailed
deriving DecidableEq, Repr

/-- Environment for the inner checkout sequence: behaviour of the three
git commands and outcomes of the filesystem operations of the
materialize step.  `removeOldAttempts` are the outcomes of the up to
three `remove_dir_all` attempts of `safe_copy_template_files`. -/
structure InternalEnv where
  clone : StepBehavior
  sparse : StepBehavior
  checkout : StepBehavior
  createParentOk : Bool
  sourceExists : Bool
  removeOldAttempts : Bool × Bool × Bool
  copyOk : Bool
deriving DecidableEq, Repr

/-- `safe_copy_template_files` (src/manager.rs lines 254-275): when the
cache entry already exists, remove it, retrying up to three times;
then copy.  Returns the result and the new cache-entry existence. -/
def safe_copy_template_files (env : InternalEnv) (cacheExists : Bool) :
    Except DlErr Unit × Bool :=
  if cacheExists then
    if env.removeOldAttempts.1 || env.removeOldAttempts.2.1 || env.removeOldAttempts.2.2 then
      if env.copyOk then (.ok (), true) else (.error .copyFailed, false)
    else
      (.error .removeOldCacheFailed, true)
  else
    if env.copyOk then (.ok (), true) else (.error .copyFailed, false)

/-- `download_template_internal` (src/manager.rs lines 117-227): clone
(timeout 300s), sparse-set (timeout 60s), branch checkout (timeout
120s), then materialize (create cache parent, verify the template path
exists under the temp dir, safely replace the cache entry).  Returns
the result, the list of steps executed, and the new cache-entry
existence. -/
def download_template_internal (env : InternalEnv) (t : Template) (r : Repo)
    (cacheExists : Bool) : Except DlErr Unit × List Step × Bool :=
  match runWithTimeout 300 env.clone with
  | none => (.error .cloneTimeout, [.clone], cacheExists)
  | some .spawnFailed => (.error .cloneSpawn, [.clone], cacheExists)
  | some (.ran false) => (.error (.cloneExit r.url), [.clone], cacheExists)
  | some (.ran true) =>
    match runWithTimeout 60 env.sparse with
    | none => (.error .sparseTimeout, [.clone, .sparse], cacheExists)
    | some .spawnFailed => (.error .sparseSpawn, [.clone, .sparse], cacheExists)
    | some (.ran false) => (.error (.sparseExit t.path), [.clone, .sparse], cacheExists)
    | some (.ran true) =>
      match runWithTimeout 120 env.checkout with
      | none => (.error .checkoutTimeout, [.clone, .sparse, .checkout], cacheExists)
      | some .spawnFailed => (.error .checkoutSpawn, [.clone, .sparse, .checkout], cacheExists)
      | some (.ran false) =>
        (.error (.checkoutExit r.branch), [.clone, .sparse, .checkout], cacheExists)
      | some (.ran true) =>
        if !env.createParentOk then
          (.error .createCacheParentFailed, [.clone, .sparse, .checkout, .materialize],
           cacheExists)
        else if !env.sourceExists then
          (.error (.pathNotFound t.path), [.clone, .sparse, .checkout, .materialize],
           cacheExists)
        else
          let (res, cache') := safe_copy_template_files env cacheExists
          (res, [.clone, .sparse, .checkout, .materialize], cache')

/-- The checkout sequence of the duplicated `download_template` in
src/main.rs (lines 318-374): the same git steps and materialize logic,
but each command is awaited with no timeout, and the old cache entry is
removed with a single attempt. -/
def main_download_steps (env : InternalEnv) (t : Template) (r : Repo)
    (cacheExists : Bool) : Except DlErr Unit × List Step × Bool :=
  match runNoTimeout env.clone with
  | none => (.error .cloneTimeout, [.clone], cacheExists)
  | some .spawnFailed => (.error .cloneSpawn, [.clone], cacheExists)
  | some (.ran false) => (.error (.cloneExit r.url), [.clone], cacheExists)
  | some (.ran true) =>
    match runNoTimeout env.sparse with
    | none => (.error .sparseTimeout, [.clone, .sparse], cacheExists)
    | some .spawnFailed => (.error .sparseSpawn, [.clone, .sparse], cacheExists)
    | some (.ran false) => (.error (.sparseExit t.path), [.clone, .sparse], cacheExists)
    | some (.ran true) =>
      match runNoTimeout env.checkout with
      | none => (.error .checkoutTimeout, [.clone, .sparse, .checkout], cacheExists)
      | some .spawnFailed => (.error .checkoutSpawn, [.clone, .sparse, .checkout], cacheExists)
      | some (.ran false) =>
        (.error (.checkoutExit r.branch), [.clone, .sparse, .checkout], cacheExists)
      | some (.ran true) =>
        if !env.createParentOk then
          (.error .createCacheParentFailed, [.clone, .sparse, .checkout, .materialize],
           cacheExists)
        else if !env.sourceExists then
          (.error (.pathNotFound t.path), [.clone, .sparse, .checkout, .materialize],
           cacheExists)
        else if cacheExists && !env.removeOldAttempts.1 then
          (.error .removeOldCacheFailed, [.clone, .sparse, .checkout, .materialize],
           cacheExists)
        else if env.copyOk then
          (.ok (), [.clone, .sparse, .checkout, .materialize], true)
        else
          (.error .copyFailed, [.clone, .sparse, .checkout, .materialize], false)

/-- Filesystem state visible to a download: whether the template's
cache entry directory exists and whether the repo's temp directory
exists. -/
structure FsState where
  cacheExists : Bool
  tempExists : Bool
deriving DecidableEq, Repr

/-- `cleanup_temp_dir` (src/manager.rs lines 229-252): nothing to do
when the temp dir is absent; otherwise up to three removal attempts,
failing (with a logged warning) only when all three fail.  Returns the
result and the new temp-dir existence. -/
def cleanup_temp_dir (tempExists : Bool) (attempts : Bool × Bool × Bool) :
    Except Unit Unit × Bool :=
  if tempExists then
    if attempts.1 || attempts.2.1 || attempts.2.2 then (.ok (), false)
    else (.error (), true)
  else
    (.ok (), false)

/-- Environment for one `download_template` invocation: the inner
checkout environment plus outcomes for the pre-cleanup, temp-dir
creation and final cleanup. -/
structure DownloadEnv where
  internalEnv : InternalEnv
  preCleanupAttempts : Bool × Bool × Bool
  createTempOk : Bool
  postCleanupAttempts : Bool × Bool × Bool
deriving DecidableEq, Repr

/-- Observable filesystem / subprocess actions of a download, in
order. -/
inductive Event where
  | preCleanup
  | createTemp
  | step (s : Step)
  | postCleanup
deriving DecidableEq, Repr

/-- The tail of `download_template` once the temp directory has been
allocated (src/manager.rs lines 104-114): run the inner sequence, then
call `cleanup_temp_dir` again — whose failure is propagated by the `?`
on line 112, replacing the inner result. -/
def download_after_alloc (env : DownloadEnv) (t : Template) (r : Repo)
    (cacheExists : Bool) : Except DlErr Unit × FsState × List Event :=
  let (res, steps, cache') :=
    download_template_internal env.internalEnv t r cacheExists
  let (cres, temp'') := cleanup_temp_dir true env.postCleanupAttempts
  let fs' : FsState := { cacheExists := cache', tempExists := temp'' }
  let events := [Event.preCleanup, Event.createTemp] ++
    steps.map Event.step ++ [Event.postCleanup]
  match cres with
  | .error _ => (.error .postCleanupFailed, fs', events)
  | .ok _ => (res, fs', events)

/-- `download_template` (src/manager.rs lines 71-115): look up the
template's repository; skip when cached and not forced; otherwise
pre-clean and create the temp dir, then run the post-allocation tail.
Returns the result, the new filesystem state, and the event trace. -/
def download_template (cfg : Config) (fs : FsState) (env : DownloadEnv)
    (t : Template) (force : Bool) : Except DlErr Unit × FsState × List Event :=
  match cfg.repos.find? (fun r => r.name == t.repo) with
  | none => (.error (.repoNotFound t.repo), fs, [])
  | some r =>
    if fs.cacheExists && !force then
      (.ok (), fs, [])
    else
      match cleanup_temp_dir fs.tempExists env.preCleanupAttempts with
      | (.error _, temp') =>
        (.error .preCleanupFailed, { fs with tempExists := temp' }, [.preCleanup])
      | (.ok _, temp') =>
        if !env.createTempOk then
          (.error .createTempFailed, { fs with tempExists := temp' },
           [.preCleanup, .createTemp])
        else
          download_after_alloc env t r fs.cacheExists

/-- `download_all_templates` (src/manager.rs lines 277-291): every
registered template in registry order is passed to `download_template`;
a failure is caught and reported as that template's outcome, never
aborting the loop; the function itself always returns `Ok(())`.  Each
template's invocation runs in the environment `envOf` assigns to it;
the per-template report printed by the loop is the returned outcome
list. -/
def download_all_templates (cfg : Config) (envOf : Template → FsState × DownloadEnv)
    (force : Bool) : List (String × Option DlErr) × Except DlErr Unit :=
  (cfg.templates.map (fun t =>
    (t.id,
      match (download_template cfg (envOf t).1 (envOf t).2 t force).1 with
      | .ok _ => none
      | .error e => some e)),
   .ok ())

theorem mergeRepoOne_no_match (repos : List Repo) (ir : Repo)
    (h : ∀ r ∈ repos, r.name ≠ ir.name) :
    mergeRepoOne repos ir = repos ++ [ir] := by
  induction repos with
  | nil => rfl
  | cons r rs ih =>
    have hr : r.name ≠ ir.name := h r (List.mem_cons_self r rs)
    simp [mergeRepoOne, hr, ih (fun x hx => h x (List.mem_cons_of_mem r hx))]

theorem mergeRepoOne_match (pre : List Repo) (r₀ : Repo) (post : List Repo) (ir : Repo)
    (hpre : ∀ r ∈ pre, r.name ≠ ir.name) (h₀ : r₀.name = ir.name) :
    mergeRepoOne (pre ++ r₀ :: post) ir =
      pre ++ { r₀ with url := ir.url, branch := ir.branch } :: post := by
  induction pre with
  | nil => simp [mergeRepoOne, h₀]
  | cons r rs ih =>
    have hr : r.name ≠ ir.name := hpre r (List.mem_cons_self r rs)
    simp [mergeRepoOne, hr, ih (fun x hx => hpre x (List.mem_cons_of_mem r hx))]

theorem mergeTemplateOne_no_match (ts : List Template) (it : Template)
    (h : ∀ t ∈ ts, t.id ≠ it.id) :
    mergeTemplateOne ts it = ts ++ [it] := by
  induction ts with
  | nil => rfl
  | cons t rest ih =>
    have ht : t.id ≠ it.id := h t (List.mem_cons_self t rest)
    simp [mergeTemplateOne, ht, ih (fun x hx => h x (List.mem_cons_of_mem t hx))]

theorem mergeTemplateOne_match (pre : List Template) (t₀ : Template)
    (post : List Template) (it : Template)
    (hpre : ∀ t ∈ pre, t.id ≠ it.id) (h₀ : t₀.id = it.id) :
    mergeTemplateOne (pre ++ t₀ :: post) it = pre ++ it :: post := by
  induction pre with
  | nil => simp [mergeTemplateOne, h₀]
  | cons t rest ih =>
    have ht : t.id ≠ it.id := hpre t (List.mem_cons_self t rest)
    simp [mergeTemplateOne, ht, ih (fun x hx => hpre x (List.mem_cons_of_mem t hx))]

theorem mergeRepoOne_proj (repos : List Repo) (ir : Repo)
    (h : ∃ r ∈ repos, r.name = ir.name) :
    (mergeRepoOne repos ir).map (fun r => (r.name, r.auth_token, r.username)) =
      repos.map (fun r => (r.name, r.auth_token, r.username)) := by
  induction repos with
  | nil => simp at h
  | cons r rs ih =>
    by_cases hr : r.name = ir.name
    · simp [mergeRepoOne, hr]
    · have h' : ∃ x ∈ rs, x.name = ir.name := by
        rcases h with ⟨x, hx, hnx⟩
        rcases List.mem_cons.mp hx with hx0 | hxs
        · exact absurd (hx0 ▸ hnx) hr
        · exact ⟨x, hxs, hnx⟩
      simp [mergeRepoOne, hr, ih h']

/-- C7: `merge_config` upserts by key.  An incoming repository matching
an existing one by name overwrites that repository's url and branch in
place, otherwise it is appended; an incoming template matching an
existing one by id replaces the entire record in place, otherwise it is
appended; and merging an import containing name "a" / url "new" into a
registry containing one repository named "a" yields exactly one
repository named "a" with url "new". -/
theorem c7_merge_upsert :
    (∀ (repos : List Repo) (ir : Repo), (∀ r ∈ repos, r.name ≠ ir.name) →
      mergeRepoOne repos ir = repos ++ [ir]) ∧
    (∀ (pre : List Repo) (r₀ : Repo) (post : List Repo) (ir : Repo),
      (∀ r ∈ pre, r.name ≠ ir.name) → r₀.name = ir.name →
      mergeRepoOne (pre ++ r₀ :: post) ir =
        pre ++ { r₀ with url := ir.url, branch := ir.branch } :: post) ∧
    (∀ (ts : List Template) (it : Template), (∀ t ∈ ts, t.id ≠ it.id) →
      mergeTemplateOne ts it = ts ++ [it]) ∧
    (∀ (pre : List Template) (t₀ : Template) (post : List Template) (it : Template),
      (∀ t ∈ pre, t.id ≠ it.id) → t₀.id = it.id →
      mergeTemplateOne (pre ++ t₀ :: post) it = pre ++ it :: post) ∧
    merge_config { repos := [⟨"a", "old", "main", none, none⟩], templates := [] }
        { repos := [⟨"a", "new", "main", none, none⟩], templates := [] } =
      { repos := [⟨"a", "new", "main", none, none⟩], templates := [] } :=
  ⟨mergeRepoOne_no_match, mergeRepoOne_match,
   mergeTemplateOne_no_match, mergeTemplateOne_match, by decide⟩

/-- C7 witness: the upsert cases applied at concrete registries. -/
theorem c7_merge_upsert_witness :
    mergeRepoOne [⟨"b", "u", "m", none, none⟩] ⟨"a", "new", "dev", none, none⟩ =
      [⟨"b", "u", "m", none, none⟩, ⟨"a", "new", "dev", none, none⟩] ∧
    mergeRepoOne [⟨"a", "old", "main", some "tok", some "me"⟩]
        ⟨"a", "new", "dev", none, none⟩ =
      [⟨"a", "new", "dev", some "tok", some "me"⟩] ∧
    mergeTemplateOne [⟨"t", "n", "r", "p", "d", "l", ["x"]⟩]
        ⟨"t", "n2", "r2", "p2", "d2", "l2", []⟩ =
      [⟨"t", "n2", "r2", "p2", "d2", "l2", []⟩] := by
  refine ⟨?_, ?_, ?_⟩
  · exact c7_merge_upsert.1 _ _ (by decide)
  · exact c7_merge_upsert.2.1 [] _ [] _ (by decide) (by decide)
  · exact c7_merge_upsert.2.2.2.1 [] _ [] _ (by decide) (by decide)

/-- C10: when an incoming repository matches an existing one by name,
the merge leaves every existing repository's `name`, `auth_token` and
`username` unchanged (only `url` and `branch` are replaced). -/
theorem c10_merge_preserves_credentials (repos : List Repo) (ir : Repo)
    (h : ∃ r ∈ repos, r.name = ir.name) :
    (mergeRepoOne repos ir).map (fun r => (r.name, r.auth_token, r.username)) =
      repos.map (fun r => (r.name, r.auth_token, r.username)) :=
  mergeRepoOne_proj repos ir h

/-- C10 witness: a matching merge at a concrete repository with
credentials set. -/
theorem c10_merge_preserves_credentials_witness :
    (mergeRepoOne [⟨"a", "old", "main", some "tok", some "me"⟩]
        ⟨"a", "new", "dev", none, none⟩).map
      (fun r => (r.name, r.auth_token, r.username)) =
      [("a", some "tok", some "me")] := by
  rw [c10_merge_preserves_credentials _ _
    ⟨⟨"a", "old", "main", some "tok", some "me"⟩, by decide, by decide⟩]
  decide

/-- C5 counterexample: the tag string "a,b,a" is stored as
["a", "b", "a"] — the repeated tag appears twice, so the parsed list is
not deduplicated as the claim states. -/
theorem c5_parse_tags_counterexample :
    parseTags (some "a,b,a") = ["a", "b", "a"] ∧
    List.count "a" (parseTags (some "a,b,a")) = 2 := by
  decide

/-- C5 (amended): the stored tag list is obtained by splitting the
input on the comma delimiter, trimming each segment, discarding empty
segments and preserving input order; duplicates are preserved, not
deduplicated.  On success `add_template` stores exactly this list. -/
theorem c5_parse_tags_amended (s : String) :
    (∀ t ∈ parseTags (some s), t.isEmpty = false) ∧
    List.Sublist (parseTags (some s))
      ((splitOnChar ',' s.toList).map (fun cs => String.mk (trimChars cs))) ∧
    (∀ t, t ∈ (splitOnChar ',' s.toList).map (fun cs => String.mk (trimChars cs)) →
      t.isEmpty = false → t ∈ parseTags (some s)) ∧
    (∀ t, List.count t (parseTags (some s)) =
      List.count t (((splitOnChar ',' s.toList).map
        (fun cs => String.mk (trimChars cs))).filter (fun u => !u.isEmpty))) ∧
    (∀ (cfg cfg' : Config) (id name repo path d l : String),
      add_template cfg id name repo path d l (some s) = .ok cfg' →
      cfg'.templates.map Template.tags =
        cfg.templates.map Template.tags ++ [parseTags (some s)]) := by
  refine ⟨?_, ?_, ?_, fun t => rfl, ?_⟩
  · intro t ht
    have := (List.mem_filter.mp ht).2
    simpa using this
  · exact List.filter_sublist _
  · intro t ht he
    exact List.mem_filter.mpr ⟨ht, by simp [he]⟩
  · intro cfg cfg' id name repo path d l h
    unfold add_template at h
    by_cases h1 : cfg.repos.any (fun r => r.name == repo)
    · by_cases h2 : cfg.templates.any (fun t => t.id == id)
      · simp [h1, h2] at h
      · simp [h1, h2] at h
        rw [← h]
        simp
    · simp [h1] at h

/-- C5 witness: the amended parsing law at the concrete input
" a , ,b,a" (trimming, empty-segment discarding, order, duplicates). -/
theorem c5_parse_tags_witness :
    parseTags (some " a , ,b,a") = ["a", "b", "a"] ∧
    List.Sublist (parseTags (some " a , ,b,a"))
      ((splitOnChar ',' " a , ,b,a".toList).map (fun cs => String.mk (trimChars cs))) ∧
    "b" ∈ parseTags (some " a , ,b,a") := by
  refine ⟨by decide, (c5_parse_tags_amended " a , ,b,a").2.1, ?_⟩
  exact (c5_parse_tags_amended " a , ,b,a").2.2.1 "b" (by decide) (by decide)

theorem repoErrors_length (r : Repo) :
    (repoErrors r).length =
      (if r.name.isEmpty then 1 else 0) + (if r.url.isEmpty then 1 else 0) +
      (if r.branch.isEmpty then 1 else 0) := by
  cases hn : r.name.isEmpty <;> cases hu : r.url.isEmpty <;>
    cases hb : r.branch.isEmpty <;> simp [repoErrors, hn, hu, hb]

theorem templateErrors_length (t : Template) :
    (templateErrors t).length =
      (if t.id.isEmpty then 1 else 0) + (if t.name.isEmpty then 1 else 0) +
      (if t.repo.isEmpty then 1 else 0) + (if t.path.isEmpty then 1 else 0) := by
  cases hi : t.id.isEmpty <;> cases hn : t.name.isEmpty <;>
    cases hr : t.repo.isEmpty <;> cases hp : t.path.isEmpty <;>
    simp [templateErrors, hi, hn, hr, hp]

theorem flatMap_length_sum {α β : Type} (f : α → List β) (l : List α) :
    (l.flatMap f).length = (l.map (fun a => (f a).length)).sum := by
  induction l with
  | nil => rfl
  | cons a rest ih => simp [List.flatMap_cons, ih]

/-- C8: validation collects one structural error per empty
`name`/`url`/`branch` of a repository and per empty
`id`/`name`/`repo`/`path` of a template without short-circuiting
(the error list's length is the full count of empty fields);
validation fails exactly when at least one structural error exists;
dangling repository references contribute exactly one warning per
offending template and never make validation fail on their own. -/
theorem c8_validation_collects (cfg : Config) :
    (validationErrors cfg).length = structuralErrorCount cfg ∧
    ((∃ w, validate_import_config cfg = .ok w) ↔ validationErrors cfg = []) ∧
    (validationWarnings cfg).length =
      (cfg.templates.filter (danglingRepoRef cfg)).length ∧
    (structuralErrorCount cfg = 0 →
      validate_import_config cfg = .ok (validationWarnings cfg)) := by
  have hlen : (validationErrors cfg).length = structuralErrorCount cfg := by
    simp only [validationErrors, structuralErrorCount, List.length_append,
      flatMap_length_sum, repoErrors_length, templateErrors_length]
  refine ⟨hlen, ?_, by simp [validationWarnings], ?_⟩
  · constructor
    · rintro ⟨w, hw⟩
      by_cases h : validationErrors cfg = []
      · exact h
      · simp [validate_import_config, h] at hw
    · intro h
      exact ⟨validationWarnings cfg, by simp [validate_import_config, h]⟩
  · intro h
    have he : validationErrors cfg = [] := by
      have := hlen.trans h
      exact List.eq_nil_of_length_eq_zero this
    simp [validate_import_config, he]

/-- C8 witness: a registry with one template whose repository reference
dangles and no empty field validates successfully, with the warning
reported. -/
theorem c8_validation_witness :
    structuralErrorCount
        { repos := [], templates := [⟨"t1", "T", "r1", "p", "d", "vue", []⟩] } = 0 ∧
    validate_import_config
        { repos := [], templates := [⟨"t1", "T", "r1", "p", "d", "vue", []⟩] } =
      .ok (validationWarnings
        { repos := [], templates := [⟨"t1", "T", "r1", "p", "d", "vue", []⟩] }) :=
  ⟨by decide,
   (c8_validation_collects
     { repos := [], templates := [⟨"t1", "T", "r1", "p", "d", "vue", []⟩] }).2.2.2
     (by decide)⟩

theorem asStr_mapM_loop (xs : List String) (acc : List String) :
    List.mapM.loop asStr (xs.map Json.str) acc = some (acc.reverse ++ xs) := by
  induction xs generalizing acc with
  | nil => simp [List.mapM.loop]
  | cons x rest ih => simp [List.mapM.loop, asStr, ih]

theorem decodeRepo_encodeRepo (r : Repo) : decodeRepo (encodeRepo r) = some r := by
  rcases r with ⟨n, u, b, a, w⟩
  rcases a with _ | t <;> rcases w with _ | v <;>
    simp [encodeRepo, decodeRepo, getField, asStr]

theorem decodeTemplate_encodeTemplate (t : Template) :
    decodeTemplate (encodeTemplate t) = some t := by
  rcases t with ⟨i, n, r, p, d, l, tags⟩
  simp [encodeTemplate, decodeTemplate, getField, asStr, asStrList,
    List.mapM, asStr_mapM_loop]

theorem mapM_decodeRepo_loop (rs : List Repo) (acc : List Repo) :
    List.mapM.loop decodeRepo (rs.map encodeRepo) acc = some (acc.reverse ++ rs) := by
  induction rs generalizing acc with
  | nil => simp [List.mapM.loop]
  | cons r rest ih => simp [List.mapM.loop, decodeRepo_encodeRepo, ih]

theorem mapM_decodeTemplate_loop (ts : List Template) (acc : List Template) :
    List.mapM.loop decodeTemplate (ts.map encodeTemplate) acc =
      some (acc.reverse ++ ts) := by
  induction ts generalizing acc with
  | nil => simp [List.mapM.loop]
  | cons t rest ih => simp [List.mapM.loop, decodeTemplate_encodeTemplate, ih]

/-- C9: saving a registry and loading it back reproduces the same
registry — the same repositories in order with the same fields and the
same templates in order with the same fields — and loading with the
backing file absent yields the empty registry. -/
theorem c9_save_load_roundtrip (cfg : Config) :
    load_config (some (save_config cfg)) = .ok cfg ∧
    load_config none = .ok emptyConfig := by
  constructor
  · rcases cfg with ⟨rs, ts⟩
    simp [load_config, save_config, encodeConfig, decodeConfig, getField,
      List.mapM, mapM_decodeRepo_loop, mapM_decodeTemplate_loop]
  · rfl

/-- C1: `download_all_templates` produces one outcome per registered
template, in registry order (the outcome list's keys are exactly the
template ids in order), for every environment — including environments
in which any subset of the downloads fail — and the batch itself always
returns success, so no single failure aborts it. -/
theorem c1_download_all_outcomes (cfg : Config)
    (envOf : Template → FsState × DownloadEnv) (force : Bool) :
    (download_all_templates cfg envOf force).1.length = cfg.templates.length ∧
    (download_all_templates cfg envOf force).1.map Prod.fst =
      cfg.templates.map Template.id ∧
    (download_all_templates cfg envOf force).2 = .ok () := by
  refine ⟨?_, ?_, rfl⟩ <;> simp [download_all_templates]

/-- C6 counterexample: the mode string "MERGE" is neither "merge" nor
"overwrite", yet `import_config` does not fail with InvalidMode — it
lowercases the mode, performs the merge and persists the result. -/
theorem c6_invalid_mode_counterexample :
    (import_config
        { config := { repos := [⟨"a", "old", "main", none, none⟩], templates := [] },
          savedFile := none }
        { repos := [⟨"a", "new", "dev", none, none⟩], templates := [] }
        "MERGE" false true none).2 = none ∧
    (import_config
        { config := { repos := [⟨"a", "old", "main", none, none⟩], templates := [] },
          savedFile := none }
        { repos := [⟨"a", "new", "dev", none, none⟩], templates := [] }
        "MERGE" false true none).1 ≠
      { config := { repos := [⟨"a", "old", "main", none, none⟩], templates := [] },
        savedFile := none } := by
  decide

/-- C6 (amended): for every mode string whose lowercase form is neither
"merge" nor "overwrite", an `import_config` call that reaches the mode
dispatch (validation skipped or passing) fails with InvalidMode and
leaves both the in-memory registry and the persisted registry file
unchanged — the returned state is exactly the input state, for every
save outcome, since the InvalidMode bail precedes any mutation or
save. -/
theorem c6_invalid_mode_amended (st : ManagerState) (imported : Config)
    (mode : String) (skip saveOk : Bool) (fileAfterFailedSave : Option Config)
    (h1 : lowercase mode ≠ "merge") (h2 : lowercase mode ≠ "overwrite")
    (h3 : skip = true ∨ validationErrors imported = []) :
    import_config st imported mode skip saveOk fileAfterFailedSave =
      (st, some (.invalidMode mode)) := by
  unfold import_config
  rcases h3 with h3 | h3
  · simp [h3, h1, h2]
  · simp [h3, h1, h2]

/-- C6 witness: the amended law at the concrete mode "bogus" with a
valid import: InvalidMode and an unchanged state. -/
theorem c6_invalid_mode_witness :
    import_config
        { config := { repos := [⟨"a", "old", "main", none, none⟩], templates := [] },
          savedFile := none }
        { repos := [⟨"a", "new", "dev", none, none⟩], templates := [] }
        "bogus" false true none =
      ({ config := { repos := [⟨"a", "old", "main", none, none⟩], templates := [] },
         savedFile := none },
       some (.invalidMode "bogus")) :=
  c6_invalid_mode_amended _ _ "bogus" false true none (by decide) (by decide)
    (Or.inr (by decide))

theorem download_reaches_alloc (cfg : Config) (fs : FsState) (env : DownloadEnv)
    (t : Template) (force : Bool) (r : Repo)
    (hr : cfg.repos.find? (fun x => x.name == t.repo) = some r)
    (hskip : (fs.cacheExists && !force) = false)
    (hpre : (cleanup_temp_dir fs.tempExists env.preCleanupAttempts).1 = .ok ())
    (htemp : env.createTempOk = true) :
    download_template cfg fs env t force = download_after_alloc env t r fs.cacheExists := by
  unfold download_template
  rw [hr]
  rcases hcl : cleanup_temp_dir fs.tempExists env.preCleanupAttempts with ⟨c1, temp1⟩
  rw [hcl] at hpre
  simp only at hpre
  subst hpre
  simp [hskip, hcl, htemp]

/-- C2 counterexample: a download whose clone step fails with a non-zero
exit status and whose final temp-dir cleanup also fails returns the
cleanup error, not the clone error — the cleanup failure replaces the
earlier step's error, contradicting the claim. -/
theorem c2_cleanup_counterexample :
    (download_template_internal
        ⟨⟨1, .ran false⟩, ⟨1, .ran true⟩, ⟨1, .ran true⟩, true, true,
          (true, true, true), true⟩
        ⟨"t1", "T", "r1", "p", "d", "vue", []⟩ ⟨"r1", "u", "main", none, none⟩
        false).1 = .error (.cloneExit "u") ∧
    (download_template
      { repos := [⟨"r1", "u", "main", none, none⟩],
        templates := [⟨"t1", "T", "r1", "p", "d", "vue", []⟩] }
      ⟨false, false⟩
      ⟨⟨⟨1, .ran false⟩, ⟨1, .ran true⟩, ⟨1, .ran true⟩, true, true,
          (true, true, true), true⟩,
        (true, true, true), true, (false, false, false)⟩
      ⟨"t1", "T", "r1", "p", "d", "vue", []⟩ false).1 =
      .error .postCleanupFailed :=
  ⟨rfl, rfl⟩

/-- C2 (amended): for every download that reaches temp-directory
allocation, the final temp-directory removal is attempted on every exit
path, whether the checkout steps succeed or fail; when that cleanup
fails (after three logged attempts) its error is escalated into the
caller's returned error, replacing the inner step's error if the inner
sequence also failed; when the cleanup succeeds the inner result is
returned unchanged. -/
theorem c2_cleanup_escalated (cfg : Config) (fs : FsState) (env : DownloadEnv)
    (t : Template) (force : Bool) (r : Repo)
    (hr : cfg.repos.find? (fun x => x.name == t.repo) = some r)
    (hskip : (fs.cacheExists && !force) = false)
    (hpre : (cleanup_temp_dir fs.tempExists env.preCleanupAttempts).1 = .ok ())
    (htemp : env.createTempOk = true) :
    Event.postCleanup ∈ (download_template cfg fs env t force).2.2 ∧
    ((cleanup_temp_dir true env.postCleanupAttempts).1 = .error () →
      (download_template cfg fs env t force).1 = .error .postCleanupFailed) ∧
    ((cleanup_temp_dir true env.postCleanupAttempts).1 = .ok () →
      (download_template cfg fs env t force).1 =
        (download_template_internal env.internalEnv t r fs.cacheExists).1) := by
  rw [download_reaches_alloc cfg fs env t force r hr hskip hpre htemp]
  rcases hint : download_template_internal env.internalEnv t r fs.cacheExists with
    ⟨res, steps, cache'⟩
  rcases hcl : cleanup_temp_dir true env.postCleanupAttempts with ⟨cres, temp2⟩
  rcases cres with _ | _
  · refine ⟨?_, fun _ => ?_, fun h => ?_⟩
    · simp [download_after_alloc, hint, hcl]
    · simp [download_after_alloc, hint, hcl]
    · simp at h
  · refine ⟨?_, fun h => ?_, fun _ => ?_⟩
    · simp [download_after_alloc, hint, hcl]
    · simp at h
    · simp [download_after_alloc, hint, hcl]

/-- C2 witness: the amended law at a concrete download in which the
inner sequence succeeds but all three final cleanup attempts fail. -/
theorem c2_cleanup_witness :
    Event.postCleanup ∈ (download_template
      { repos := [⟨"r1", "u", "main", none, none⟩],
        templates := [⟨"t1", "T", "r1", "p", "d", "vue", []⟩] }
      ⟨false, false⟩
      ⟨⟨⟨1, .ran true⟩, ⟨1, .ran true⟩, ⟨1, .ran true⟩, true, true,
          (true, true, true), true⟩,
        (true, true, true), true, (false, false, false)⟩
      ⟨"t1", "T", "r1", "p", "d", "vue", []⟩ false).2.2 ∧
    (download_template
      { repos := [⟨"r1", "u", "main", none, none⟩],
        templates := [⟨"t1", "T", "r1", "p", "d", "vue", []⟩] }
      ⟨false, false⟩
      ⟨⟨⟨1, .ran true⟩, ⟨1, .ran true⟩, ⟨1, .ran true⟩, true, true,
          (true, true, true), true⟩,
        (true, true, true), true, (false, false, false)⟩
      ⟨"t1", "T", "r1", "p", "d", "vue", []⟩ false).1 =
      .error .postCleanupFailed := by
  have h := c2_cleanup_escalated
    { repos := [⟨"r1", "u", "main", none, none⟩],
      templates := [⟨"t1", "T", "r1", "p", "d", "vue", []⟩] }
    ⟨false, false⟩
    ⟨⟨⟨1, .ran true⟩, ⟨1, .ran true⟩, ⟨1, .ran true⟩, true, true,
        (true, true, true), true⟩,
      (true, true, true), true, (false, false, false)⟩
    ⟨"t1", "T", "r1", "p", "d", "vue", []⟩ false
    ⟨"r1", "u", "main", none, none⟩ rfl (by decide) rfl (by decide)
  exact ⟨h.1, h.2.1 rfl⟩

/-- C3 counterexample: in the binary's duplicated download path
(src/main.rs), a clone that takes 301 seconds — exceeding the claimed
300-second timeout — is simply awaited: no Timeout error is returned
and every later step still executes, contradicting the claim for this
download path. -/
theorem c3_timeout_counterexample :
    300 < (⟨⟨301, .ran true⟩, ⟨1, .ran true⟩, ⟨1, .ran true⟩, true, true,
        (true, true, true), true⟩ : InternalEnv).clone.durationSecs ∧
    main_download_steps
        ⟨⟨301, .ran true⟩, ⟨1, .ran true⟩, ⟨1, .ran true⟩, true, true,
          (true, true, true), true⟩
        ⟨"t1", "T", "r1", "p", "d", "vue", []⟩ ⟨"r1", "u", "main", none, none⟩
        false =
      (.ok (), [.clone, .sparse, .checkout, .materialize], true) :=
  ⟨by decide, rfl⟩

/-- C3 (amended): in the library's download orchestrator
(src/manager.rs), the clone, sparse-set and branch-checkout steps race
their external command against timeouts of 300s, 60s and 120s
respectively; a step exceeding its timeout makes the download return
that step's Timeout error with no later step executed.  The binary's
duplicated download path (src/main.rs) runs the same steps without any
timeout and can never return a Timeout error. -/
theorem c3_step_timeouts :
    (∀ (env : InternalEnv) (t : Template) (r : Repo) (c : Bool),
      300 < env.clone.durationSecs →
      download_template_internal env t r c = (.error .cloneTimeout, [.clone], c)) ∧
    (∀ (env : InternalEnv) (t : Template) (r : Repo) (c : Bool),
      env.clone.durationSecs ≤ 300 → env.clone.outcome = .ran true →
      60 < env.sparse.durationSecs →
      download_template_internal env t r c =
        (.error .sparseTimeout, [.clone, .sparse], c)) ∧
    (∀ (env : InternalEnv) (t : Template) (r : Repo) (c : Bool),
      env.clone.durationSecs ≤ 300 → env.clone.outcome = .ran true →
      env.sparse.durationSecs ≤ 60 → env.sparse.outcome = .ran true →
      120 < env.checkout.durationSecs →
      download_template_internal env t r c =
        (.error .checkoutTimeout, [.clone, .sparse, .checkout], c)) ∧
    (∀ (env : InternalEnv) (t : Template) (r : Repo) (c : Bool),
      (main_download_steps env t r c).1 ≠ .error .cloneTimeout ∧
      (main_download_steps env t r c).1 ≠ .error .sparseTimeout ∧
      (main_download_steps env t r c).1 ≠ .error .checkoutTimeout) := by
  refine ⟨?_, ?_, ?_, ?_⟩
  · intro env t r c h
    unfold download_template_internal
    simp [runWithTimeout, h]
  · intro env t r c h1 h2 h3
    unfold download_template_internal
    simp [runWithTimeout, Nat.not_lt.mpr h1, h2, h3]
  · intro env t r c h1 h2 h3 h4 h5
    unfold download_template_internal
    simp [runWithTimeout, Nat.not_lt.mpr h1, h2, Nat.not_lt.mpr h3, h4, h5]
  · intro env t r c
    unfold main_download_steps runNoTimeout
    cases hc : env.clone.outcome with
    | spawnFailed => simp
    | ran b1 =>
      cases b1
      · simp
      · cases hs : env.sparse.outcome with
        | spawnFailed => simp
        | ran b2 =>
          cases b2
          · simp
          · cases hk : env.checkout.outcome with
            | spawnFailed => simp
            | ran b3 =>
              cases b3
              · simp
              · by_cases hp : env.createParentOk
                · by_cases hsrc : env.sourceExists
                  · by_cases hrm : (c && !env.removeOldAttempts.1) = true
                    · simp [hp, hsrc, hrm]
                    · by_cases hcp : env.copyOk <;> simp [hp, hsrc, hrm, hcp]
                  · simp [hp, hsrc]
                · simp [hp]

/-- C3 witness: all three timeout laws and the absence of timeouts in
the binary path, at concrete environments. -/
theorem c3_timeout_witness :
    download_template_internal
        ⟨⟨301, .ran true⟩, ⟨1, .ran true⟩, ⟨1, .ran true⟩, true, true,
          (true, true, true), true⟩
        ⟨"t1", "T", "r1", "p", "d", "vue", []⟩ ⟨"r1", "u", "main", none, none⟩
        false =
      (.error .cloneTimeout, [.clone], false) ∧
    download_template_internal
        ⟨⟨1, .ran true⟩, ⟨61, .ran true⟩, ⟨1, .ran true⟩, true, true,
          (true, true, true), true⟩
        ⟨"t1", "T", "r1", "p", "d", "vue", []⟩ ⟨"r1", "u", "main", none, none⟩
        false =
      (.error .sparseTimeout, [.clone, .sparse], false) ∧
    download_template_internal
        ⟨⟨1, .ran true⟩, ⟨1, .ran true⟩, ⟨121, .ran true⟩, true, true,
          (true, true, true), true⟩
        ⟨"t1", "T", "r1", "p", "d", "vue", []⟩ ⟨"r1", "u", "main", none, none⟩
        false =
      (.error .checkoutTimeout, [.clone, .sparse, .checkout], false) ∧
    (main_download_steps
        ⟨⟨301, .ran true⟩, ⟨61, .ran true⟩, ⟨121, .ran true⟩, true, true,
          (true, true, true), true⟩
        ⟨"t1", "T", "r1", "p", "d", "vue", []⟩ ⟨"r1", "u", "main", none, none⟩
        false).1 ≠ .error .cloneTimeout := by
  refine ⟨?_, ?_, ?_, ?_⟩
  · exact c3_step_timeouts.1 _ _ _ _ (by decide)
  · exact c3_step_timeouts.2.1 _ _ _ _ (by decide) (by decide) (by decide)
  · exact c3_step_timeouts.2.2.1 _ _ _ _ (by decide) (by decide) (by decide)
      (by decide) (by decide)
  · exact (c3_step_timeouts.2.2.2
      ⟨⟨301, .ran true⟩, ⟨61, .ran true⟩, ⟨121, .ran true⟩, true, true,
        (true, true, true), true⟩
      ⟨"t1", "T", "r1", "p", "d", "vue", []⟩ ⟨"r1", "u", "main", none, none⟩
      false).1

/-- C4 counterexample: a template whose cache entry directory exists
but whose repository is not registered makes `download_template` with
force = false fail with RepoNotFound instead of returning success — the
repository lookup precedes the cache skip-check. -/
theorem c4_skip_counterexample :
    (download_template { repos := [], templates := [] } ⟨true, false⟩
      ⟨⟨⟨1, .ran true⟩, ⟨1, .ran true⟩, ⟨1, .ran true⟩, true, true,
          (true, true, true), true⟩,
        (true, true, true), true, (true, true, true)⟩
      ⟨"t1", "T", "r1", "p", "d", "vue", []⟩ false).1 =
      .error (.repoNotFound "r1") :=
  rfl

/-- C4 (amended): for every template whose repository is registered and
whose cache entry directory exists, `download_template` with
force = false returns success immediately, leaves the filesystem state
unchanged and performs no filesystem action; consequently a second call
on the resulting state — under any environment — is the same success
with no filesystem action (idempotent no-op). -/
theorem c4_skip_no_mutation (cfg : Config) (fs : FsState) (env : DownloadEnv)
    (t : Template) (r : Repo)
    (hr : cfg.repos.find? (fun x => x.name == t.repo) = some r)
    (hc : fs.cacheExists = true) :
    download_template cfg fs env t false = (.ok (), fs, []) ∧
    ∀ env₂ : DownloadEnv,
      download_template cfg (download_template cfg fs env t false).2.1 env₂ t false =
        (.ok (), fs, []) := by
  have h1 : download_template cfg fs env t false = (.ok (), fs, []) := by
    unfold download_template
    rw [hr]
    simp [hc]
  refine ⟨h1, fun env₂ => ?_⟩
  rw [h1]
  unfold download_template
  rw [hr]
  simp [hc]

/-- C4 witness: the skip law at a concrete cached template. -/
theorem c4_skip_witness :
    download_template
        { repos := [⟨"r1", "u", "main", none, none⟩],
          templates := [⟨"t1", "T", "r1", "p", "d", "vue", []⟩] }
        ⟨true, false⟩
        ⟨⟨⟨1, .ran true⟩, ⟨1, .ran true⟩, ⟨1, .ran true⟩, true, true,
            (true, true, true), true⟩,
          (true, true, true), true, (true, true, true)⟩
        ⟨"t1", "T", "r1", "p", "d", "vue", []⟩ false =
      (.ok (), ⟨true, false⟩, []) :=
  (c4_skip_no_mutation
    { repos := [⟨"r1", "u", "main", none, none⟩],
      templates := [⟨"t1", "T", "r1", "p", "d", "vue", []⟩] }
    ⟨true, false⟩
    ⟨⟨⟨1, .ran true⟩, ⟨1, .ran true⟩, ⟨1, .ran true⟩, true, true,
        (true, true, true), true⟩,
      (true, true, true), true, (true, true, true)⟩
    ⟨"t1", "T", "r1", "p", "d", "vue", []⟩
    ⟨"r1", "u", "main", none, none⟩ rfl rfl).1

end Mammoth
